import Mathlib

/-!
Verification of the lifeplan simulator engine.

Shallow embedding of src/lifeplan_simulator/src/utils/simulationEngine.ts and
src/lifeplan_simulator/src/historicalData.ts.  JavaScript numbers are modelled
as exact rationals; the uniform draws of Math.random are passed in explicitly
as a stream argument.  The newer revision of historicalData.ts that the engine
imports (getStockData, getInflationData, the 100-year validateSimulationPeriod)
is not present in the sources, only its tests; those pieces are modelled from
the spec and marked as such.
-/

namespace LifeplanSim

/-- The liquidationPriority field of SimulationParams (types/simulation.ts). -/
inductive LiquidationPriority where
  | crypto
  | stock
  | random
deriving DecidableEq, Repr

/-- The simulationMethod field of SimulationParams (types/simulation.ts). -/
inductive SimulationMethod where
  | montecarlo
  | historical
deriving DecidableEq, Repr

/-- The stockRegion field of SimulationParams (types/simulation.ts). -/
inductive StockRegion where
  | sp500
  | nikkei
  | world
deriving DecidableEq, Repr

/-- The inflationRegion field of SimulationParams (types/simulation.ts). -/
inductive InflationRegion where
  | japan
  | us
  | world
deriving DecidableEq, Repr

/-- SimulationParams (types/simulation.ts).  Ages and durations are integers,
money and rate fields are exact rationals. -/
structure SimulationParams where
  initialAge : ℤ
  retirementAge : ℤ
  endAge : ℤ
  loanDuration : ℤ
  medicalCareStartAge : ℤ
  entertainmentExpensesDeclineStartAge : ℤ
  entertainmentExpensesDeclineRate : ℚ
  inflationRate : ℚ
  investmentReturnRate : ℚ
  investmentRisk : ℚ
  cryptoReturnRate : ℚ
  cryptoRisk : ℚ
  stockTaxRate : ℚ
  cryptoTaxRate : ℚ
  cashUpperLimit : ℚ
  cashLowerLimit : ℚ
  cryptoLowerLimit : ℚ
  stockLowerLimit : ℚ
  liquidationPriority : LiquidationPriority
  initialStockValue : ℚ
  initialCryptoValue : ℚ
  initialCashValue : ℚ
  livingExpenses : ℚ
  entertainmentExpenses : ℚ
  housingMaintenance : ℚ
  medicalCare : ℚ
  housingLoan : ℚ
  salary : ℚ
  realEstateIncome : ℚ
  numSimulations : ℕ
  simulationMethod : SimulationMethod
  inflationRegion : InflationRegion
  stockRegion : StockRegion

/-- YearlyData (types/simulation.ts): one output row of the engine. -/
structure YearlyData where
  year : ℕ
  age : ℤ
  median : ℚ
  p90 : ℚ
  p75 : ℚ
  p25 : ℚ
  p10 : ℚ
  medianStock : ℚ
  medianCrypto : ℚ
  medianCash : ℚ

/-- sp500Returns (historicalData.ts): S&P 500 annual returns 1994 to 2023. -/
def sp500Returns : List ℚ :=
  [0.0131, 0.3756, 0.2296, 0.3336, 0.2858, 0.2104, -0.0910, -0.1189, -0.2210,
   0.2868, 0.1088, 0.0491, 0.1579, 0.0549, -0.3700, 0.2646, 0.1506, 0.0211,
   0.1600, 0.3239, 0.1369, 0.0138, 0.1196, 0.2183, -0.0438, 0.3157, 0.1840,
   0.2889, -0.1825, 0.2626]

/-- japanInflationRates (historicalData.ts): Japanese CPI change 1994 to 2023. -/
def japanInflationRates : List ℚ :=
  [0.007, -0.001, 0.001, 0.018, 0.007, -0.003, -0.007, -0.007, -0.009, -0.003,
   0.000, -0.003, 0.002, 0.001, 0.014, -0.014, -0.007, -0.003, 0.000, 0.004,
   0.027, 0.008, -0.001, 0.005, 0.010, 0.005, 0.000, -0.002, 0.024, 0.032]

/-- cryptoReturns (historicalData.ts): crypto returns 1994 to 2023; before 2014
the contemporaneous stock return stands in. -/
def cryptoReturns : List ℚ :=
  [0.0131, 0.3756, 0.2296, 0.3336, 0.2858, 0.2104, -0.0910, -0.1189, -0.2210,
   0.2868, 0.1088, 0.0491, 0.1579, 0.0549, -0.3700, 0.2646, 0.1506, 0.0211,
   0.0160, 0.3239, -0.5817, 0.3533, 1.2500, 1.3318, -0.7269, 0.8700, 3.0017,
   0.5973, -0.6426, 1.5648]

/-- Modelled from the spec: the Nikkei stock-return series of the newer
historicalData.ts revision is not in the available sources; the spec only
requires a fixed-length 30-entry series of finite values.  No verified claim
depends on its entries, so a placeholder 30-entry series is used. -/
def nikkeiReturns : List ℚ := List.replicate 30 0

/-- Modelled from the spec: world stock-return series, 30 finite entries;
placeholder values, see nikkeiReturns. -/
def worldStockReturns : List ℚ := List.replicate 30 0

/-- Modelled from the spec: US inflation series, 30 finite entries;
placeholder values, see nikkeiReturns. -/
def usInflationRates : List ℚ := List.replicate 30 0

/-- Modelled from the spec: world inflation series, 30 finite entries;
placeholder values, see nikkeiReturns. -/
def worldInflationRates : List ℚ := List.replicate 30 0

/-- Result record of validateSimulationPeriod (historicalData.ts). -/
structure ValidationResult where
  isValid : Bool
  maxEndAge : ℤ
  message : String

/-- Modelled from the spec: the validateSimulationPeriod of the newer
historicalData.ts revision (the one the engine imports) is not in the
available sources.  Per the spec and its tests it rejects periods over the
maximum supported span of 100 years with a user-facing message, notes cyclic
reuse for periods over the 30-year data length, and accepts otherwise. -/
def validateSimulationPeriod (startAge endAge : ℤ) : ValidationResult :=
  let simulationPeriod := endAge - startAge
  let maxPeriod : ℤ := 100
  if simulationPeriod > maxPeriod then
    { isValid := false
      maxEndAge := startAge + maxPeriod
      message := "The historical method supports at most 100 simulated years; lower the end age." }
  else if simulationPeriod > 30 then
    { isValid := true
      maxEndAge := endAge
      message := "Periods beyond the 30-year data reuse the series cyclically." }
  else
    { isValid := true, maxEndAge := endAge, message := "" }

/-- Modelled from the spec: region selector for stock data in the newer
historicalData.ts revision (per its tests it returns the series matching the
region, defaulting to sp500). -/
def getStockData (region : StockRegion) : List ℚ :=
  match region with
  | .sp500 => sp500Returns
  | .nikkei => nikkeiReturns
  | .world => worldStockReturns

/-- Modelled from the spec: region selector for inflation data in the newer
historicalData.ts revision (per its tests it returns the series matching the
region, defaulting to japan). -/
def getInflationData (region : InflationRegion) : List ℚ :=
  match region with
  | .japan => japanInflationRates
  | .us => usInflationRates
  | .world => worldInflationRates

/-- simulationPeriod, as computed in both engines: endAge - initialAge. -/
def simulationPeriod (p : SimulationParams) : ℤ := p.endAge - p.initialAge

/-- Per-trajectory mutable state of one simulation run: the three asset
holdings and the expense and income variables that the year loop mutates
in place (simulationEngine.ts lines 43 to 51). -/
structure SimState where
  stockValue : ℚ
  cryptoValue : ℚ
  cashValue : ℚ
  currentLivingExpenses : ℚ
  currentEntertainmentExpenses : ℚ
  currentHousingMaintenance : ℚ
  currentMedicalCare : ℚ
  currentRealEstateIncome : ℚ

/-- Initial trajectory state (simulationEngine.ts lines 43 to 51). -/
def initState (p : SimulationParams) : SimState :=
  { stockValue := p.initialStockValue
    cryptoValue := p.initialCryptoValue
    cashValue := p.initialCashValue
    currentLivingExpenses := p.livingExpenses
    currentEntertainmentExpenses := p.entertainmentExpenses
    currentHousingMaintenance := p.housingMaintenance
    currentMedicalCare := p.medicalCare
    currentRealEstateIncome := p.realEstateIncome }

/-- The three asset holdings, for the rebalancing steps. -/
structure AssetState where
  stockValue : ℚ
  cryptoValue : ℚ
  cashValue : ℚ

/-- Ceiling rule (simulationEngine.ts lines 88 to 92): cash above the upper
bound moves the surplus into stock and clamps cash. -/
def applyCashCeiling (cashUpperLimit : ℚ) (a : AssetState) : AssetState :=
  if a.cashValue > cashUpperLimit then
    { stockValue := a.stockValue + (a.cashValue - cashUpperLimit)
      cryptoValue := a.cryptoValue
      cashValue := cashUpperLimit }
  else a

/-- The two risk assets that the liquidate closure can be asked to sell. -/
inductive RiskAsset where
  | crypto
  | stock
deriving DecidableEq, Repr

/-- State threaded through the liquidate closure: assets plus the remaining
deficit (simulationEngine.ts lines 95 to 116). -/
structure LiquidationState where
  stockValue : ℚ
  cryptoValue : ℚ
  cashValue : ℚ
  deficit : ℚ

/-- The liquidate closure (simulationEngine.ts lines 97 to 116): sell
min(deficit * taxRate, assetValue - assetLowerLimit) of the given asset,
credit sellAmount / taxRate to cash and reduce the deficit by it. -/
def liquidate (p : SimulationParams) (priorityAsset : RiskAsset)
    (s : LiquidationState) : LiquidationState :=
  if s.deficit ≤ 0 then s
  else
    let assetValue := match priorityAsset with
      | .crypto => s.cryptoValue
      | .stock => s.stockValue
    let assetLowerLimit := match priorityAsset with
      | .crypto => p.cryptoLowerLimit
      | .stock => p.stockLowerLimit
    let taxRate := match priorityAsset with
      | .crypto => p.cryptoTaxRate
      | .stock => p.stockTaxRate
    let availableToSell := assetValue - assetLowerLimit
    if availableToSell > 0 then
      let sellAmount := min (s.deficit * taxRate) availableToSell
      let cashGained := sellAmount / taxRate
      { stockValue := match priorityAsset with
          | .crypto => s.stockValue
          | .stock => s.stockValue - sellAmount
        cryptoValue := match priorityAsset with
          | .crypto => s.cryptoValue - sellAmount
          | .stock => s.cryptoValue
        cashValue := s.cashValue + cashGained
        deficit := s.deficit - cashGained }
    else s

/-- Floor rule (simulationEngine.ts lines 94 to 125): when cash is below the
lower bound, liquidate the two risk assets in priority order; only the value
crypto of liquidationPriority selects crypto first, every other value
(stock and random alike) sells stock first. -/
def applyCashFloor (p : SimulationParams) (a : AssetState) : AssetState :=
  if a.cashValue < p.cashLowerLimit then
    let s0 : LiquidationState :=
      { stockValue := a.stockValue
        cryptoValue := a.cryptoValue
        cashValue := a.cashValue
        deficit := p.cashLowerLimit - a.cashValue }
    let s2 :=
      if p.liquidationPriority = LiquidationPriority.crypto then
        liquidate p .stock (liquidate p .crypto s0)
      else
        liquidate p .crypto (liquidate p .stock s0)
    { stockValue := s2.stockValue
      cryptoValue := s2.cryptoValue
      cashValue := s2.cashValue }
  else a

/-- Stock floor enforcement (simulationEngine.ts lines 127 to 131): stock
still below its floor is topped back up to the floor from cash. -/
def topUpStock (p : SimulationParams) (a : AssetState) : AssetState :=
  if a.stockValue < p.stockLowerLimit then
    { stockValue := a.stockValue + (p.stockLowerLimit - a.stockValue)
      cryptoValue := a.cryptoValue
      cashValue := a.cashValue - (p.stockLowerLimit - a.stockValue) }
  else a

/-- Crypto floor enforcement (simulationEngine.ts lines 133 to 137). -/
def topUpCrypto (p : SimulationParams) (a : AssetState) : AssetState :=
  if a.cryptoValue < p.cryptoLowerLimit then
    { stockValue := a.stockValue
      cryptoValue := a.cryptoValue + (p.cryptoLowerLimit - a.cryptoValue)
      cashValue := a.cashValue - (p.cryptoLowerLimit - a.cryptoValue) }
  else a

/-- Post-rebalance floor enforcement (simulationEngine.ts lines 127 to 137):
the stock block runs first, then the crypto block. -/
def applyAssetFloors (p : SimulationParams) (a : AssetState) : AssetState :=
  topUpCrypto p (topUpStock p a)

/-- One simulated year (the body shared verbatim by the Monte Carlo loop,
simulationEngine.ts lines 58 to 151, and the historical loop, lines 258 to
373), given the sampled annual returns and the inflation rate in effect. -/
def yearBody (p : SimulationParams) (stockAnnualReturn cryptoAnnualReturn
    inflationRate : ℚ) (year : ℕ) (s : SimState) : SimState :=
  let currentAge : ℤ := p.initialAge + year - 1
  let stockValue := s.stockValue * (1 + stockAnnualReturn)
  let cryptoValue := s.cryptoValue * (1 + cryptoAnnualReturn)
  let currentSalary := if currentAge ≤ p.retirementAge then p.salary else 0
  let income := currentSalary + s.currentRealEstateIncome
  let currentEntertainmentExpenses :=
    if currentAge ≥ p.entertainmentExpensesDeclineStartAge then
      s.currentEntertainmentExpenses * 0.9
    else s.currentEntertainmentExpenses
  let expenses :=
    s.currentLivingExpenses + currentEntertainmentExpenses +
      s.currentHousingMaintenance +
      (if currentAge ≥ p.medicalCareStartAge then s.currentMedicalCare else 0) +
      (if (year : ℤ) - 1 < p.loanDuration then p.housingLoan else 0)
  let balance := income - expenses
  let a0 : AssetState :=
    { stockValue := stockValue, cryptoValue := cryptoValue
      cashValue := s.cashValue + balance }
  let a := applyAssetFloors p (applyCashFloor p (applyCashCeiling p.cashUpperLimit a0))
  { stockValue := a.stockValue
    cryptoValue := a.cryptoValue
    cashValue := a.cashValue
    currentLivingExpenses := s.currentLivingExpenses * (1 + inflationRate)
    currentEntertainmentExpenses := currentEntertainmentExpenses * (1 + inflationRate)
    currentHousingMaintenance := s.currentHousingMaintenance * (1 + inflationRate)
    currentMedicalCare := s.currentMedicalCare * (1 + inflationRate)
    currentRealEstateIncome := s.currentRealEstateIncome * (1 + inflationRate) }

/-- Monte Carlo trajectory state after a given number of simulated years.
The draw stream supplies the two Math.random() results of each year; the
code turns a uniform draw u in [0,1) into the factor u * 2 - 1
(simulationEngine.ts lines 62 to 65). -/
def mcState (p : SimulationParams) (draw : ℕ → ℚ × ℚ) : ℕ → SimState
  | 0 => initState p
  | n + 1 =>
    let u := draw (n + 1)
    let stockRandomFactor := u.1 * 2 - 1
    let cryptoRandomFactor := u.2 * 2 - 1
    let stockAnnualReturn := p.investmentReturnRate + stockRandomFactor * p.investmentRisk
    let cryptoAnnualReturn := p.cryptoReturnRate + cryptoRandomFactor * p.cryptoRisk
    yearBody p stockAnnualReturn cryptoAnnualReturn p.inflationRate (n + 1)
      (mcState p draw n)

/-- Total assets of a trajectory state: stock + crypto + cash. -/
def totalAssets (s : SimState) : ℚ := s.stockValue + s.cryptoValue + s.cashValue

/-- JavaScript falsy-or on an array lookup: data[i] or-else d.  The source
arrays are finite rationals, so the or-else fires exactly when the lookup is
out of range or the stored value is 0 (simulationEngine.ts lines 266 to 268). -/
def lookupOr (data : List ℚ) (i : ℕ) (d : ℚ) : ℚ :=
  match data[i]? with
  | none => d
  | some q => if q = 0 then d else q

/-- One year's historical sample for a given start offset: stock return,
crypto return and inflation, looked up at (startYear + year - 1) mod 30
with falsy-or defaults 0, 0 and 0.02 (simulationEngine.ts lines 260 to 268). -/
def histSample (p : SimulationParams) (startYear year : ℕ) : ℚ × ℚ × ℚ :=
  let historicalDataLength : ℕ := 30
  let dataIndex := (startYear + year - 1) % historicalDataLength
  (lookupOr (getStockData p.stockRegion) dataIndex 0,
   lookupOr cryptoReturns dataIndex 0,
   lookupOr (getInflationData p.inflationRegion) dataIndex 0.02)

/-- Historical trajectory state after a given number of simulated years
(simulationEngine.ts lines 242 to 373).  The looked-up samples are finite
rationals, so the NaN guards of the source never fire. -/
def histState (p : SimulationParams) (startYear : ℕ) : ℕ → SimState
  | 0 => initState p
  | n + 1 =>
    let r := histSample p startYear (n + 1)
    yearBody p r.1 r.2.1 r.2.2 (n + 1) (histState p startYear n)

/-- Number of historical start offsets actually run (simulationEngine.ts
lines 227 to 233): min(10, 30) when the period fits the 30-year data,
min(5, 30) otherwise. -/
def actualStartYears (p : SimulationParams) : ℕ :=
  let historicalDataLength : ℕ := 30
  let maxStartYears := min 10 historicalDataLength
  if simulationPeriod p ≤ 30 then maxStartYears else min 5 historicalDataLength

/-- One per-trajectory result array of the Monte Carlo run: the initial value
followed by one entry per simulated year (simulationEngine.ts lines 53 to 156). -/
def mcTrajectoryOf (p : SimulationParams) (d : ℕ → ℚ × ℚ) (f : SimState → ℚ) :
    List ℚ :=
  (List.range ((simulationPeriod p).toNat + 1)).map fun y => f (mcState p d y)

/-- One per-trajectory result array of the historical run
(simulationEngine.ts lines 253 to 379). -/
def histTrajectoryOf (p : SimulationParams) (startYear : ℕ) (f : SimState → ℚ) :
    List ℚ :=
  (List.range ((simulationPeriod p).toNat + 1)).map fun y =>
    f (histState p startYear y)


/-- Ascending sort, as the JavaScript sort((a, b) => a - b) of the result
arrays (simulationEngine.ts lines 166 to 169 and 396 to 399). -/
def sortAsc (l : List ℚ) : List ℚ := List.insertionSort (· ≤ ·) l

/-- Percentile read-off: sorted[floor(count * fraction)]
(simulationEngine.ts lines 175 to 178).  Out-of-range and zero entries read
as 0, matching the or-zero guard of the historical aggregation. -/
def percentileOf (l : List ℚ) (count : ℕ) (fraction : ℚ) : ℚ :=
  (sortAsc l).getD (Nat.floor ((count : ℚ) * fraction)) 0

/-- Median read-off: sorted[floor(count / 2)] (simulationEngine.ts line 174). -/
def medianOf (l : List ℚ) (count : ℕ) : ℚ :=
  (sortAsc l).getD (Nat.floor ((count : ℚ) / 2)) 0

/-- One output row (simulationEngine.ts lines 171 to 182 and 402 to 413). -/
def buildYearlyData (p : SimulationParams) (year : ℕ)
    (nTot nStock nCrypto nCash : ℕ)
    (outcomes stockOutcomes cryptoOutcomes cashOutcomes : List ℚ) : YearlyData :=
  { year := year
    age := p.initialAge + year
    median := medianOf outcomes nTot
    p90 := percentileOf outcomes nTot 0.9
    p75 := percentileOf outcomes nTot 0.75
    p25 := percentileOf outcomes nTot 0.25
    p10 := percentileOf outcomes nTot 0.1
    medianStock := medianOf stockOutcomes nStock
    medianCrypto := medianOf cryptoOutcomes nCrypto
    medianCash := medianOf cashOutcomes nCash }

/-- The per-simulation result arrays of the Monte Carlo run, one per
simulation index, reading the given component of the state
(simulationEngine.ts lines 37 to 156). -/
def mcResults (p : SimulationParams) (draw : ℕ → ℕ → ℚ × ℚ)
    (f : SimState → ℚ) : List (List ℚ) :=
  (List.range p.numSimulations).map fun i => mcTrajectoryOf p (draw i) f

/-- runMonteCarloSimulation (simulationEngine.ts lines 9 to 187).  The draw
stream gives, per simulation index and per year, the two Math.random()
results consumed by that year. -/
def runMonteCarloSimulation (p : SimulationParams) (draw : ℕ → ℕ → ℚ × ℚ) :
    List YearlyData :=
  (List.range ((simulationPeriod p + 1).toNat)).map fun year =>
    buildYearlyData p year p.numSimulations p.numSimulations p.numSimulations
      p.numSimulations
      ((mcResults p draw totalAssets).map fun sim => sim.getD year 0)
      ((mcResults p draw SimState.stockValue).map fun sim => sim.getD year 0)
      ((mcResults p draw SimState.cryptoValue).map fun sim => sim.getD year 0)
      ((mcResults p draw SimState.cashValue).map fun sim => sim.getD year 0)

/-- The per-start-offset result arrays of the historical run, reading the
given component of the state (simulationEngine.ts lines 237 to 379). -/
def histResults (p : SimulationParams) (f : SimState → ℚ) : List (List ℚ) :=
  (List.range (actualStartYears p)).map fun s => histTrajectoryOf p s f

/-- All total-asset trajectories of the historical run, one per start offset
(simulationEngine.ts lines 237 to 379). -/
def historicalTrajectories (p : SimulationParams) : List (List ℚ) :=
  histResults p totalAssets

/-- One aggregated output row of the historical run, or none when the year
has no valid outcomes (simulationEngine.ts lines 385 to 415). -/
def histYearRow (p : SimulationParams) (year : ℕ) : Option YearlyData :=
  let yearlyOutcomes := (histResults p totalAssets).map fun sim => sim.getD year 0
  let yearlyStockOutcomes :=
    (histResults p SimState.stockValue).map fun sim => sim.getD year 0
  let yearlyCryptoOutcomes :=
    (histResults p SimState.cryptoValue).map fun sim => sim.getD year 0
  let yearlyCashOutcomes :=
    (histResults p SimState.cashValue).map fun sim => sim.getD year 0
  if yearlyOutcomes.isEmpty then none
  else some (buildYearlyData p year yearlyOutcomes.length
    yearlyStockOutcomes.length yearlyCryptoOutcomes.length
    yearlyCashOutcomes.length yearlyOutcomes yearlyStockOutcomes
    yearlyCryptoOutcomes yearlyCashOutcomes)

/-- runHistoricalSimulation (simulationEngine.ts lines 194 to 419): validate
the period, run one trajectory per start offset, aggregate per year skipping
years with no valid outcomes. -/
def runHistoricalSimulation (p : SimulationParams) : List YearlyData :=
  let validation := validateSimulationPeriod p.initialAge p.endAge
  if validation.isValid then
    (List.range ((simulationPeriod p + 1).toNat)).filterMap (histYearRow p)
  else []

/-- A historical invocation in the runtime environment, which always carries
a Math.random stream even though the historical method never reads it. -/
def runHistoricalSimulationEnv (rng : ℕ → ℕ → ℚ × ℚ) (p : SimulationParams) :
    List YearlyData :=
  runHistoricalSimulation p

/-- A JavaScript number as the historical lookup can observe it: a finite
rational, NaN, or an infinity.  An absent array entry (out-of-range index)
is modelled by Option none at the use sites. -/
inductive JSValue where
  | num : ℚ → JSValue
  | nan : JSValue
  | inf : JSValue
deriving DecidableEq, Repr

/-- Finiteness of a JavaScript number (Number.isFinite). -/
def JSValue.finite : JSValue → Bool
  | .num _ => true
  | .nan => false
  | .inf => false

/-- Truthiness of a JavaScript number: 0 and NaN are falsy, every other
number (infinities included) is truthy. -/
def JSValue.truthy : JSValue → Bool
  | .num q => decide (q ≠ 0)
  | .nan => false
  | .inf => true

/-- The JavaScript expression data[i] or-else d over JSValue: the left operand
is kept when truthy, otherwise the numeric default replaces it. -/
def jsOrDefault (v : Option JSValue) (d : ℚ) : JSValue :=
  match v with
  | some w => if w.truthy then w else .num d
  | none => .num d

/-- Concrete parameter set matching the baseParams of the engine test suite. -/
def defaultParams : SimulationParams :=
  { initialAge := 30
    retirementAge := 65
    endAge := 35
    loanDuration := 0
    medicalCareStartAge := 75
    entertainmentExpensesDeclineStartAge := 75
    entertainmentExpensesDeclineRate := 0.1
    inflationRate := 0.02
    investmentReturnRate := 0.05
    investmentRisk := 0.15
    cryptoReturnRate := 0.10
    cryptoRisk := 0.30
    stockTaxRate := 0.10
    cryptoTaxRate := 0.30
    cashUpperLimit := 10000000
    cashLowerLimit := 1000000
    cryptoLowerLimit := 0
    stockLowerLimit := 0
    liquidationPriority := .crypto
    initialStockValue := 5000000
    initialCryptoValue := 1000000
    initialCashValue := 2000000
    livingExpenses := 2000000
    entertainmentExpenses := 500000
    housingMaintenance := 300000
    medicalCare := 500000
    housingLoan := 0
    salary := 4000000
    realEstateIncome := 0
    numSimulations := 100
    simulationMethod := .montecarlo
    inflationRegion := .japan
    stockRegion := .sp500 }

/-- A 70-year historical request (ages 30 to 100), past the 30-year data. -/
def pCyclic : SimulationParams :=
  { defaultParams with endAge := 100, simulationMethod := .historical }

/-- A 101-year historical request (ages 30 to 131), past the 100-year cap. -/
def pTooLong : SimulationParams :=
  { defaultParams with endAge := 131, simulationMethod := .historical }

/-- Ceiling scenario with crypto liquidation priority: cash starts above the
upper bound, all flows and returns are zero. -/
def pCeiling : SimulationParams :=
  { defaultParams with
      liquidationPriority := .crypto
      initialCashValue := 15000000
      livingExpenses := 0
      entertainmentExpenses := 0
      housingMaintenance := 0
      medicalCare := 0
      salary := 0
      realEstateIncome := 0
      inflationRate := 0
      investmentReturnRate := 0
      investmentRisk := 0
      cryptoReturnRate := 0
      cryptoRisk := 0 }

/-- Entertainment-decline scenario: decline already active in year 1, with a
configured decline rate of 0.2 and no inflation. -/
def pDecline : SimulationParams :=
  { defaultParams with
      initialAge := 75
      endAge := 80
      entertainmentExpensesDeclineRate := 0.2
      inflationRate := 0 }

/-- Stock-first parameter set for the floor-liquidation witness. -/
def pStockFirst : SimulationParams :=
  { defaultParams with liquidationPriority := .stock }

/-- Draw stream whose uniform draws are all one half (random factor 0). -/
def halfDraw : ℕ → ℚ × ℚ := fun _ => (0.5, 0.5)

/-- Per-simulation draw streams, all one half. -/
def halfDraw2 : ℕ → ℕ → ℚ × ℚ := fun _ _ => (0.5, 0.5)

/-- Per-simulation draw streams, all zero (a second, different environment). -/
def zeroDraw2 : ℕ → ℕ → ℚ × ℚ := fun _ _ => (0, 0)

/-! Theorems. -/

theorem length_historicalTrajectories (p : SimulationParams) :
    (historicalTrajectories p).length = actualStartYears p := by
  simp [historicalTrajectories, histResults]

/-- Claim C10: the historical method is deterministic: two invocations with
identical parameter values, in environments with arbitrary (possibly
different) random streams, produce identical YearlyData sequences; the
historical method consumes no randomness. -/
theorem historical_run_deterministic :
    ∀ (p q : SimulationParams) (r₁ r₂ : ℕ → ℕ → ℚ × ℚ), p = q →
      runHistoricalSimulationEnv r₁ p = runHistoricalSimulationEnv r₂ q := by
  intro p q r₁ r₂ h
  subst h
  rfl

theorem historical_run_deterministic_witness :
    runHistoricalSimulationEnv halfDraw2 defaultParams =
      runHistoricalSimulationEnv zeroDraw2 defaultParams :=
  historical_run_deterministic defaultParams defaultParams halfDraw2 zeroDraw2 rfl

/-- Claim C2: a simulation period over the 100-year cap is rejected: the run
returns an empty sequence and the validation carries a non-empty user-facing
message; any period of at most 100 years passes validation. -/
theorem period_cap_validation (p : SimulationParams) :
    (100 < simulationPeriod p →
      runHistoricalSimulation p = [] ∧
      (validateSimulationPeriod p.initialAge p.endAge).isValid = false ∧
      (validateSimulationPeriod p.initialAge p.endAge).message ≠ "") ∧
    (simulationPeriod p ≤ 100 →
      (validateSimulationPeriod p.initialAge p.endAge).isValid = true) := by
  simp only [simulationPeriod] at *
  constructor
  · intro h
    have hv : p.endAge - p.initialAge > 100 := h
    refine ⟨?_, ?_, ?_⟩
    · simp [runHistoricalSimulation, validateSimulationPeriod, hv]
    · simp [validateSimulationPeriod, hv]
    · simp [validateSimulationPeriod, hv]
  · intro h
    have hv : ¬(p.endAge - p.initialAge > 100) := not_lt.mpr h
    by_cases h30 : p.endAge - p.initialAge > 30 <;>
      simp [validateSimulationPeriod, hv, h30]

theorem period_cap_validation_witness :
    (runHistoricalSimulation pTooLong = [] ∧
      (validateSimulationPeriod pTooLong.initialAge pTooLong.endAge).isValid = false ∧
      (validateSimulationPeriod pTooLong.initialAge pTooLong.endAge).message ≠ "") ∧
    (validateSimulationPeriod defaultParams.initialAge defaultParams.endAge).isValid
      = true :=
  ⟨(period_cap_validation pTooLong).1 (by decide),
   (period_cap_validation defaultParams).2 (by decide)⟩

/-- Claim C1 counterexample: a 70-year historical request passes validation
but the engine runs 5 trajectories, not the 30 the claim requires once the
period exceeds 30 years. -/
theorem historical_thirty_offsets_refuted :
    (validateSimulationPeriod pCyclic.initialAge pCyclic.endAge).isValid = true ∧
    30 < simulationPeriod pCyclic ∧
    (historicalTrajectories pCyclic).length = 5 ∧ (5 : ℕ) ≠ 30 := by
  refine ⟨by decide, by decide, ?_, by decide⟩
  rw [length_historicalTrajectories]
  decide

/-- Claim C1 as amended: a period within the 30-year data runs min(10, 30)
= 10 start offsets; a longer period (within the 100-year cap) runs
min(5, 30) = 5 trajectories, each reusing the data cyclically through the
index (startOffset + yearIndex - 1) mod 30, so the samples repeat with
period 30. -/
theorem historical_offsets_and_cyclic_reuse (p : SimulationParams) :
    (simulationPeriod p ≤ 30 → (historicalTrajectories p).length = 10) ∧
    (30 < simulationPeriod p → (historicalTrajectories p).length = 5) ∧
    (∀ s y, 1 ≤ y → histSample p s (y + 30) = histSample p s y) := by
  refine ⟨?_, ?_, ?_⟩
  · intro h
    rw [length_historicalTrajectories]
    simp [actualStartYears, h]
  · intro h
    have h' : ¬(simulationPeriod p ≤ 30) := not_le.mpr h
    rw [length_historicalTrajectories]
    simp [actualStartYears, h']
  · intro s y hy
    simp only [histSample]
    rw [show s + (y + 30) - 1 = s + y - 1 + 30 from by omega, Nat.add_mod_right]

theorem historical_offsets_and_cyclic_reuse_witness :
    (historicalTrajectories pCyclic).length = 5 ∧
    histSample pCyclic 0 31 = histSample pCyclic 0 1 :=
  ⟨(historical_offsets_and_cyclic_reuse pCyclic).2.1 (by decide),
   (historical_offsets_and_cyclic_reuse pCyclic).2.2 0 1 (by decide)⟩

/-- Claim C3 counterexample: with crypto liquidation priority and cash above
the upper bound, year 1 leaves crypto untouched and adds the whole surplus to
stock, contradicting the claim that the surplus goes to the asset selected by
the liquidation-priority policy. -/
theorem ceiling_priority_refuted :
    pCeiling.liquidationPriority = LiquidationPriority.crypto ∧
    (mcState pCeiling halfDraw 1).cashValue = pCeiling.cashUpperLimit ∧
    (mcState pCeiling halfDraw 1).stockValue
      = pCeiling.initialStockValue + 5000000 ∧
    (mcState pCeiling halfDraw 1).cryptoValue = pCeiling.initialCryptoValue ∧
    (mcState pCeiling halfDraw 1).cryptoValue
      ≠ pCeiling.initialCryptoValue + 5000000 := by
  refine ⟨rfl, ?_, ?_, ?_, ?_⟩ <;>
    norm_num [mcState, yearBody, initState, applyCashCeiling, applyCashFloor,
      applyAssetFloors, topUpStock, topUpCrypto, liquidate, pCeiling,
      defaultParams, halfDraw]

/-- Claim C3 as amended: whenever cash exceeds the upper bound after income
and expenses, the whole surplus is moved into stock regardless of the
liquidation-priority policy, cash is set exactly to the upper bound, and
total assets are unchanged by the transfer. -/
theorem ceiling_surplus_to_stock (u : ℚ) (a : AssetState) (h : a.cashValue > u) :
    (applyCashCeiling u a).stockValue = a.stockValue + (a.cashValue - u) ∧
    (applyCashCeiling u a).cryptoValue = a.cryptoValue ∧
    (applyCashCeiling u a).cashValue = u ∧
    (applyCashCeiling u a).stockValue + (applyCashCeiling u a).cryptoValue +
        (applyCashCeiling u a).cashValue
      = a.stockValue + a.cryptoValue + a.cashValue := by
  unfold applyCashCeiling
  rw [if_pos h]
  exact ⟨rfl, rfl, rfl, by ring⟩

theorem ceiling_surplus_to_stock_witness :
    (applyCashCeiling 10000000 ⟨5000000, 1000000, 15000000⟩).stockValue
        = 5000000 + (15000000 - 10000000) ∧
    (applyCashCeiling 10000000 ⟨5000000, 1000000, 15000000⟩).cryptoValue
        = 1000000 ∧
    (applyCashCeiling 10000000 ⟨5000000, 1000000, 15000000⟩).cashValue
        = 10000000 ∧
    (applyCashCeiling 10000000 ⟨5000000, 1000000, 15000000⟩).stockValue +
        (applyCashCeiling 10000000 ⟨5000000, 1000000, 15000000⟩).cryptoValue +
        (applyCashCeiling 10000000 ⟨5000000, 1000000, 15000000⟩).cashValue
      = 5000000 + 1000000 + 15000000 :=
  ceiling_surplus_to_stock 10000000 ⟨5000000, 1000000, 15000000⟩ (by norm_num)

/-- Claim C5: the engine multiplies the entertainment expense by the fixed
factor 0.9 once the decline-onset age is reached, ignoring the configured
entertainmentExpensesDeclineRate; with a configured rate of 0.2 the claimed
factor (1 - rate) = 0.8 disagrees with the computed year-1 value. -/
theorem decline_rate_ignored :
    (mcState pDecline halfDraw 1).currentEntertainmentExpenses
        = pDecline.entertainmentExpenses * 0.9 ∧
    pDecline.entertainmentExpensesDeclineRate = 0.2 ∧
    pDecline.entertainmentExpenses * 0.9
      ≠ pDecline.entertainmentExpenses *
          (1 - pDecline.entertainmentExpensesDeclineRate) := by
  refine ⟨?_, by norm_num [pDecline, defaultParams], ?_⟩ <;>
    norm_num [mcState, yearBody, initState, applyCashCeiling, applyCashFloor,
      applyAssetFloors, topUpStock, topUpCrypto, liquidate, pDecline,
      defaultParams, halfDraw]

theorem liquidate_done (p : SimulationParams) (A : RiskAsset)
    (s : LiquidationState) (h : s.deficit ≤ 0) : liquidate p A s = s := by
  simp only [liquidate]
  rw [if_pos h]

theorem liquidate_stock_no_room (p : SimulationParams) (s : LiquidationState)
    (h : s.stockValue - p.stockLowerLimit ≤ 0) : liquidate p .stock s = s := by
  simp only [liquidate]
  split_ifs with h1 h2 <;> first | rfl | (exact absurd h2 (not_lt.mpr h))

theorem liquidate_crypto_no_room (p : SimulationParams) (s : LiquidationState)
    (h : s.cryptoValue - p.cryptoLowerLimit ≤ 0) : liquidate p .crypto s = s := by
  simp only [liquidate]
  split_ifs with h1 h2 <;> first | rfl | (exact absurd h2 (not_lt.mpr h))

theorem liquidate_stock_apply (p : SimulationParams) (s : LiquidationState)
    (hd : 0 < s.deficit) (hav : 0 < s.stockValue - p.stockLowerLimit) :
    liquidate p .stock s =
      { stockValue := s.stockValue -
          min (s.deficit * p.stockTaxRate) (s.stockValue - p.stockLowerLimit)
        cryptoValue := s.cryptoValue
        cashValue := s.cashValue +
          min (s.deficit * p.stockTaxRate) (s.stockValue - p.stockLowerLimit)
            / p.stockTaxRate
        deficit := s.deficit -
          min (s.deficit * p.stockTaxRate) (s.stockValue - p.stockLowerLimit)
            / p.stockTaxRate } := by
  simp only [liquidate]
  rw [if_neg (not_le.mpr hd), if_pos hav]

/-- Claim C4: when cash is below the lower bound, each asset in priority
order with room above its floor sells min(shortfall * taxRate, assetValue -
assetFloor), the asset decreases by that amount, cash gains sellAmount /
taxRate and the deficit shrinks by the same; with stock priority, positive
tax rate t and enough stock above its floor, stock decreases by exactly
shortfall * t, crypto is untouched and cash returns to at least the lower
bound; and when neither asset has room above its floor the state is left
unchanged, the shortfall unresolved. -/
theorem floor_liquidation_policy (p : SimulationParams) (a : AssetState) :
    (∀ s : LiquidationState, 0 < s.deficit →
      0 < s.stockValue - p.stockLowerLimit →
      liquidate p .stock s =
        { stockValue := s.stockValue -
            min (s.deficit * p.stockTaxRate) (s.stockValue - p.stockLowerLimit)
          cryptoValue := s.cryptoValue
          cashValue := s.cashValue +
            min (s.deficit * p.stockTaxRate) (s.stockValue - p.stockLowerLimit)
              / p.stockTaxRate
          deficit := s.deficit -
            min (s.deficit * p.stockTaxRate) (s.stockValue - p.stockLowerLimit)
              / p.stockTaxRate }) ∧
    (p.liquidationPriority = LiquidationPriority.stock →
      a.cashValue < p.cashLowerLimit →
      0 < p.stockTaxRate →
      (p.cashLowerLimit - a.cashValue) * p.stockTaxRate
          ≤ a.stockValue - p.stockLowerLimit →
      (applyCashFloor p a).stockValue
          = a.stockValue - (p.cashLowerLimit - a.cashValue) * p.stockTaxRate ∧
      (applyCashFloor p a).cryptoValue = a.cryptoValue ∧
      p.cashLowerLimit ≤ (applyCashFloor p a).cashValue) ∧
    (a.stockValue - p.stockLowerLimit ≤ 0 →
      a.cryptoValue - p.cryptoLowerLimit ≤ 0 →
      applyCashFloor p a = a) := by
  refine ⟨fun s hd hav => liquidate_stock_apply p s hd hav, ?_, ?_⟩
  · intro hp hcash ht hsuff
    have hd : 0 < p.cashLowerLimit - a.cashValue := by linarith
    have hdt : 0 < (p.cashLowerLimit - a.cashValue) * p.stockTaxRate :=
      mul_pos hd ht
    have hav : 0 < a.stockValue - p.stockLowerLimit := lt_of_lt_of_le hdt hsuff
    have hmin : min ((p.cashLowerLimit - a.cashValue) * p.stockTaxRate)
        (a.stockValue - p.stockLowerLimit)
        = (p.cashLowerLimit - a.cashValue) * p.stockTaxRate :=
      min_eq_left hsuff
    have hdiv : (p.cashLowerLimit - a.cashValue) * p.stockTaxRate
        / p.stockTaxRate = p.cashLowerLimit - a.cashValue :=
      mul_div_cancel_right₀ _ (ne_of_gt ht)
    simp only [applyCashFloor]
    rw [if_pos hcash, if_neg (by rw [hp]; exact fun hcon => by cases hcon)]
    rw [liquidate_stock_apply p _ hd hav]
    simp only [hmin, hdiv]
    rw [liquidate_done p .crypto _ (by simp)]
    refine ⟨rfl, rfl, ?_⟩
    show p.cashLowerLimit ≤ a.cashValue + (p.cashLowerLimit - a.cashValue)
    linarith
  · intro hs hc
    simp only [applyCashFloor]
    split_ifs with h1 h2
    · rw [liquidate_crypto_no_room p _ hc, liquidate_stock_no_room p _ hs]
    · rw [liquidate_stock_no_room p _ hs, liquidate_crypto_no_room p _ hc]
    · rfl

theorem floor_liquidation_policy_witness :
    liquidate pStockFirst .stock ⟨1000000, 0, 0, 100⟩ = ⟨999990, 0, 100, 0⟩ ∧
    ((applyCashFloor pStockFirst ⟨1000000, 500000, 0⟩).stockValue = 900000 ∧
      (applyCashFloor pStockFirst ⟨1000000, 500000, 0⟩).cryptoValue = 500000 ∧
      (1000000 : ℚ) ≤ (applyCashFloor pStockFirst ⟨1000000, 500000, 0⟩).cashValue) ∧
    applyCashFloor defaultParams ⟨0, 0, 0⟩ = ⟨0, 0, 0⟩ := by
  have hA := (floor_liquidation_policy pStockFirst ⟨1000000, 500000, 0⟩).1
    ⟨1000000, 0, 0, 100⟩ (by norm_num) (by norm_num [pStockFirst, defaultParams])
  have hB := (floor_liquidation_policy pStockFirst ⟨1000000, 500000, 0⟩).2.1
    rfl (by norm_num [pStockFirst, defaultParams])
    (by norm_num [pStockFirst, defaultParams])
    (by norm_num [pStockFirst, defaultParams])
  have hC := (floor_liquidation_policy defaultParams ⟨0, 0, 0⟩).2.2
    (by norm_num [defaultParams]) (by norm_num [defaultParams])
  obtain ⟨hB1, hB2, hB3⟩ := hB
  refine ⟨?_, ⟨?_, ?_, ?_⟩, hC⟩
  · rw [hA]
    simp only [LiquidationState.mk.injEq]
    norm_num [pStockFirst, defaultParams]
  · rw [hB1]
    norm_num [pStockFirst, defaultParams]
  · rw [hB2]
  · have : pStockFirst.cashLowerLimit = 1000000 := rfl
    rw [← this]
    exact hB3

theorem jsOrDefault_num_lookup (data : List ℚ) (i : ℕ) (d : ℚ) :
    jsOrDefault (data[i]?.map JSValue.num) d
      = JSValue.num (lookupOr data i d) := by
  cases h : data[i]? with
  | none => simp [jsOrDefault, lookupOr, h]
  | some q =>
    by_cases hq : q = 0 <;>
      simp [jsOrDefault, lookupOr, h, JSValue.truthy, hq]

/-- Claim C7 counterexample: the 2004 entry of the Japanese inflation series
is the finite value 0, yet the historical lookup replaces it with the 0.02
default, so a finite looked-up value is not always used unchanged and the
substitution condition is not (non-)finiteness. -/
theorem nonfinite_substitution_refuted :
    japanInflationRates[10]? = some 0 ∧
    JSValue.finite (JSValue.num 0) = true ∧
    jsOrDefault (some (JSValue.num 0)) 0.02 = JSValue.num 0.02 ∧
    lookupOr japanInflationRates 10 0.02 = 0.02 ∧
    (0.02 : ℚ) ≠ 0 := by
  refine ⟨by norm_num [japanInflationRates], rfl, ?_, ?_, by norm_num⟩
  · simp [jsOrDefault, JSValue.truthy]
  · have h : japanInflationRates[10]? = some 0 := by
      norm_num [japanInflationRates]
    simp [lookupOr, h]

/-- Claim C7 as amended: the historical lookup substitutes the configured
default exactly when the looked-up value is falsy (a missing entry, NaN, or
the finite value 0); a finite non-zero value is used unchanged, and a
non-finite infinity would also be used unchanged.  Over the rational source
arrays this or-else is exactly the lookupOr the engine evaluates. -/
theorem falsy_substitution (v : Option JSValue) (d : ℚ) :
    ((v = none ∨ v = some JSValue.nan ∨ v = some (JSValue.num 0)) →
      jsOrDefault v d = JSValue.num d) ∧
    (∀ q : ℚ, v = some (JSValue.num q) → q ≠ 0 → jsOrDefault v d = JSValue.num q) ∧
    (v = some JSValue.inf → jsOrDefault v d = JSValue.inf) ∧
    (∀ (data : List ℚ) (i : ℕ), v = data[i]?.map JSValue.num →
      jsOrDefault v d = JSValue.num (lookupOr data i d)) := by
  refine ⟨?_, ?_, ?_, ?_⟩
  · rintro (rfl | rfl | rfl) <;> simp [jsOrDefault, JSValue.truthy]
  · rintro q rfl hq
    simp [jsOrDefault, JSValue.truthy, hq]
  · rintro rfl
    simp [jsOrDefault, JSValue.truthy]
  · rintro data i rfl
    exact jsOrDefault_num_lookup data i d

theorem falsy_substitution_witness :
    jsOrDefault (some (JSValue.num 0.05)) 0.02 = JSValue.num 0.05 ∧
    jsOrDefault none 0.02 = JSValue.num 0.02 ∧
    jsOrDefault (some JSValue.inf) 0.02 = JSValue.inf ∧
    jsOrDefault (japanInflationRates[3]?.map JSValue.num) 0.02
      = JSValue.num (lookupOr japanInflationRates 3 0.02) :=
  ⟨(falsy_substitution (some (JSValue.num 0.05)) 0.02).2.1 0.05 rfl (by norm_num),
   (falsy_substitution none 0.02).1 (Or.inl rfl),
   (falsy_substitution (some JSValue.inf) 0.02).2.2.1 rfl,
   (falsy_substitution (japanInflationRates[3]?.map JSValue.num) 0.02).2.2.2
     japanInflationRates 3 rfl⟩

theorem yearBody_priority_random_stock (p : SimulationParams)
    (r c i : ℚ) (y : ℕ) (s : SimState) :
    yearBody { p with liquidationPriority := .random } r c i y s
      = yearBody { p with liquidationPriority := .stock } r c i y s := rfl

theorem mcState_priority_random_stock (p : SimulationParams)
    (d : ℕ → ℚ × ℚ) (n : ℕ) :
    mcState { p with liquidationPriority := .random } d n
      = mcState { p with liquidationPriority := .stock } d n := by
  induction n with
  | zero => rfl
  | succ n ih =>
    simp only [mcState, ih]
    exact yearBody_priority_random_stock p _ _ _ _ _

theorem histState_priority_random_stock (p : SimulationParams)
    (startYear n : ℕ) :
    histState { p with liquidationPriority := .random } startYear n
      = histState { p with liquidationPriority := .stock } startYear n := by
  induction n with
  | zero => rfl
  | succ n ih =>
    simp only [histState, ih]
    exact yearBody_priority_random_stock p _ _ _ _ _

/-- Claim C6: running either engine with the random liquidation priority is
pointwise identical (over the same draw streams) to running it with the stock
priority: the liquidation branch only distinguishes crypto from everything
else, so the randomized per-event choice never happens. -/
theorem random_priority_equals_stock (p : SimulationParams)
    (draw : ℕ → ℕ → ℚ × ℚ) :
    runMonteCarloSimulation { p with liquidationPriority := .random } draw
      = runMonteCarloSimulation { p with liquidationPriority := .stock } draw ∧
    runHistoricalSimulation { p with liquidationPriority := .random }
      = runHistoricalSimulation { p with liquidationPriority := .stock } := by
  constructor
  · simp only [runMonteCarloSimulation, mcResults, mcTrajectoryOf,
      buildYearlyData, simulationPeriod, mcState_priority_random_stock]
  · have hrow : histYearRow { p with liquidationPriority := .random }
        = histYearRow { p with liquidationPriority := .stock } := by
      funext year
      simp only [histYearRow, histResults, histTrajectoryOf, actualStartYears,
        simulationPeriod, buildYearlyData, histState_priority_random_stock]
    simp only [runHistoricalSimulation, simulationPeriod, hrow]

theorem sortAsc_sorted (l : List ℚ) : (sortAsc l).Sorted (· ≤ ·) :=
  List.sorted_insertionSort _ l

theorem sortAsc_length (l : List ℚ) : (sortAsc l).length = l.length :=
  (List.perm_insertionSort _ l).length_eq

theorem sortAsc_getD_mono (l : List ℚ) {i j : ℕ} (hij : i ≤ j)
    (hj : j < l.length) : (sortAsc l).getD i 0 ≤ (sortAsc l).getD j 0 := by
  have hj2 : j < (sortAsc l).length := by rw [sortAsc_length]; exact hj
  have hi2 : i < (sortAsc l).length := lt_of_le_of_lt hij hj2
  rw [List.getD_eq_get _ _ hi2, List.getD_eq_get _ _ hj2]
  exact (sortAsc_sorted l).rel_get_of_le (Fin.mk_le_mk.mpr hij)

theorem floorIdx_lt (n : ℕ) (h : 1 ≤ n) {f : ℚ} (h0 : 0 ≤ f) (h1 : f < 1) :
    Nat.floor ((n : ℚ) * f) < n := by
  have hn : (0 : ℚ) < n := by exact_mod_cast h
  have hlt : (n : ℚ) * f < n := by nlinarith
  exact (Nat.floor_lt (by positivity)).mpr (by exact_mod_cast hlt)

theorem pct_le_pct (l : List ℚ) (h : 1 ≤ l.length) {x y : ℚ} (h0 : 0 ≤ x)
    (hxy : x ≤ y) (hy1 : y < 1) :
    percentileOf l l.length x ≤ percentileOf l l.length y := by
  unfold percentileOf
  exact sortAsc_getD_mono l
    (Nat.floor_mono (mul_le_mul_of_nonneg_left hxy (by positivity)))
    (floorIdx_lt l.length h (le_trans h0 hxy) hy1)

theorem medianOf_eq_half (l : List ℚ) (n : ℕ) :
    medianOf l n = percentileOf l n (1 / 2) := by
  unfold medianOf percentileOf
  rw [show ((n : ℚ) / 2) = (n : ℚ) * (1 / 2) from by ring]

theorem percentile_chain (l : List ℚ) (n : ℕ) (hn : l.length = n)
    (h1 : 1 ≤ n) :
    percentileOf l n 0.1 ≤ percentileOf l n 0.25 ∧
    percentileOf l n 0.25 ≤ medianOf l n ∧
    medianOf l n ≤ percentileOf l n 0.75 ∧
    percentileOf l n 0.75 ≤ percentileOf l n 0.9 := by
  subst hn
  rw [medianOf_eq_half]
  refine ⟨?_, ?_, ?_, ?_⟩ <;>
    exact pct_le_pct l h1 (by norm_num) (by norm_num) (by norm_num)

theorem histYearRow_chain (p : SimulationParams) (year : ℕ) (yd : YearlyData)
    (h : histYearRow p year = some yd) :
    yd.p10 ≤ yd.p25 ∧ yd.p25 ≤ yd.median ∧ yd.median ≤ yd.p75 ∧
      yd.p75 ≤ yd.p90 := by
  simp only [histYearRow] at h
  by_cases hE : ((histResults p totalAssets).map fun sim => sim.getD year 0).isEmpty
  · rw [if_pos hE] at h
    cases h
  · rw [if_neg hE] at h
    injection h with h
    subst h
    simp only [buildYearlyData]
    refine percentile_chain _ _ rfl ?_
    have hne : ((histResults p totalAssets).map fun sim => sim.getD year 0) ≠ [] := by
      intro h0
      rw [h0] at hE
      exact hE rfl
    have := List.length_pos.mpr hne
    omega

/-- Claim C8: in every output row of either engine (for the Monte Carlo run,
whenever at least one trajectory contributes), the reported percentiles of
total assets satisfy p10 le p25 le median le p75 le p90, since each is read
from the same ascending-sorted array at index floor(count * fraction). -/
theorem percentile_order (p : SimulationParams) (draw : ℕ → ℕ → ℚ × ℚ) :
    (1 ≤ p.numSimulations →
      ∀ yd ∈ runMonteCarloSimulation p draw,
        yd.p10 ≤ yd.p25 ∧ yd.p25 ≤ yd.median ∧ yd.median ≤ yd.p75 ∧
          yd.p75 ≤ yd.p90) ∧
    (∀ yd ∈ runHistoricalSimulation p,
        yd.p10 ≤ yd.p25 ∧ yd.p25 ≤ yd.median ∧ yd.median ≤ yd.p75 ∧
          yd.p75 ≤ yd.p90) := by
  constructor
  · intro hn yd hmem
    simp only [runMonteCarloSimulation, List.mem_map] at hmem
    obtain ⟨year, hy, rfl⟩ := hmem
    simp only [buildYearlyData]
    refine percentile_chain _ _ ?_ hn
    simp [mcResults]
  · intro yd hmem
    simp only [runHistoricalSimulation] at hmem
    by_cases hv : (validateSimulationPeriod p.initialAge p.endAge).isValid = true
    · rw [if_pos hv] at hmem
      obtain ⟨year, hy, hf⟩ := List.mem_filterMap.mp hmem
      exact histYearRow_chain p year yd hf
    · rw [if_neg hv] at hmem
      cases hmem

theorem percentile_order_witness :
    (∀ yd ∈ runMonteCarloSimulation defaultParams halfDraw2,
        yd.p10 ≤ yd.p25 ∧ yd.p25 ≤ yd.median ∧ yd.median ≤ yd.p75 ∧
          yd.p75 ≤ yd.p90) ∧
    (∀ yd ∈ runHistoricalSimulation defaultParams,
        yd.p10 ≤ yd.p25 ∧ yd.p25 ≤ yd.median ∧ yd.median ≤ yd.p75 ∧
          yd.p75 ≤ yd.p90) :=
  ⟨(percentile_order defaultParams halfDraw2).1 (by norm_num [defaultParams]),
   (percentile_order defaultParams halfDraw2).2⟩

theorem applyCashCeiling_cash_le (u : ℚ) (a : AssetState) :
    (applyCashCeiling u a).cashValue ≤ u := by
  unfold applyCashCeiling
  split_ifs with h
  · exact le_rfl
  · exact le_of_not_lt h

theorem liquidate_cash_add_deficit (p : SimulationParams) (A : RiskAsset)
    (s : LiquidationState) :
    (liquidate p A s).cashValue + (liquidate p A s).deficit
      = s.cashValue + s.deficit := by
  cases A <;> simp only [liquidate] <;> split_ifs <;> (try dsimp only) <;> ring

theorem liquidate_deficit_nonneg (p : SimulationParams) (A : RiskAsset)
    (s : LiquidationState) (hts : 0 < p.stockTaxRate)
    (htc : 0 < p.cryptoTaxRate) (hd : 0 ≤ s.deficit) :
    0 ≤ (liquidate p A s).deficit := by
  cases A <;> simp only [liquidate] <;> split_ifs <;> (try dsimp only) <;>
    try exact hd
  · have hmin : min (s.deficit * p.cryptoTaxRate)
        (s.cryptoValue - p.cryptoLowerLimit) ≤ s.deficit * p.cryptoTaxRate :=
      min_le_left _ _
    have hdiv : min (s.deficit * p.cryptoTaxRate)
        (s.cryptoValue - p.cryptoLowerLimit) / p.cryptoTaxRate ≤ s.deficit :=
      (div_le_iff₀ htc).mpr hmin
    linarith
  · have hmin : min (s.deficit * p.stockTaxRate)
        (s.stockValue - p.stockLowerLimit) ≤ s.deficit * p.stockTaxRate :=
      min_le_left _ _
    have hdiv : min (s.deficit * p.stockTaxRate)
        (s.stockValue - p.stockLowerLimit) / p.stockTaxRate ≤ s.deficit :=
      (div_le_iff₀ hts).mpr hmin
    linarith

theorem liquidate2_cash_le (p : SimulationParams) (o₁ o₂ : RiskAsset)
    (s : LiquidationState) (hts : 0 < p.stockTaxRate)
    (htc : 0 < p.cryptoTaxRate) (hd : 0 ≤ s.deficit) :
    (liquidate p o₂ (liquidate p o₁ s)).cashValue
      ≤ s.cashValue + s.deficit := by
  have h1 := liquidate_cash_add_deficit p o₁ s
  have h2 := liquidate_cash_add_deficit p o₂ (liquidate p o₁ s)
  have d1 := liquidate_deficit_nonneg p o₁ s hts htc hd
  have d2 := liquidate_deficit_nonneg p o₂ (liquidate p o₁ s) hts htc d1
  linarith

theorem applyCashFloor_cash_le (p : SimulationParams) (a : AssetState)
    (hLU : p.cashLowerLimit ≤ p.cashUpperLimit) (hts : 0 < p.stockTaxRate)
    (htc : 0 < p.cryptoTaxRate) (ha : a.cashValue ≤ p.cashUpperLimit) :
    (applyCashFloor p a).cashValue ≤ p.cashUpperLimit := by
  unfold applyCashFloor
  split_ifs with hc hp
  · dsimp only
    have hb := liquidate2_cash_le p .crypto .stock
      { stockValue := a.stockValue, cryptoValue := a.cryptoValue,
        cashValue := a.cashValue, deficit := p.cashLowerLimit - a.cashValue }
      hts htc (by dsimp only; linarith)
    dsimp only at hb
    linarith
  · dsimp only
    have hb := liquidate2_cash_le p .stock .crypto
      { stockValue := a.stockValue, cryptoValue := a.cryptoValue,
        cashValue := a.cashValue, deficit := p.cashLowerLimit - a.cashValue }
      hts htc (by dsimp only; linarith)
    dsimp only at hb
    linarith
  · exact ha

theorem topUpStock_stock_ge (p : SimulationParams) (a : AssetState) :
    p.stockLowerLimit ≤ (topUpStock p a).stockValue := by
  unfold topUpStock
  split_ifs with h <;> (try dsimp only) <;> linarith

theorem topUpStock_cash_le (p : SimulationParams) (a : AssetState) :
    (topUpStock p a).cashValue ≤ a.cashValue := by
  unfold topUpStock
  split_ifs with h <;> (try dsimp only) <;> linarith

theorem topUpCrypto_stock_eq (p : SimulationParams) (a : AssetState) :
    (topUpCrypto p a).stockValue = a.stockValue := by
  unfold topUpCrypto
  split_ifs with h <;> rfl

theorem topUpCrypto_crypto_ge (p : SimulationParams) (a : AssetState) :
    p.cryptoLowerLimit ≤ (topUpCrypto p a).cryptoValue := by
  unfold topUpCrypto
  split_ifs with h <;> (try dsimp only) <;> linarith

theorem topUpCrypto_cash_le (p : SimulationParams) (a : AssetState) :
    (topUpCrypto p a).cashValue ≤ a.cashValue := by
  unfold topUpCrypto
  split_ifs with h <;> (try dsimp only) <;> linarith

theorem applyAssetFloors_stock_ge (p : SimulationParams) (a : AssetState) :
    p.stockLowerLimit ≤ (applyAssetFloors p a).stockValue := by
  unfold applyAssetFloors
  rw [topUpCrypto_stock_eq]
  exact topUpStock_stock_ge p a

theorem applyAssetFloors_crypto_ge (p : SimulationParams) (a : AssetState) :
    p.cryptoLowerLimit ≤ (applyAssetFloors p a).cryptoValue := by
  unfold applyAssetFloors
  exact topUpCrypto_crypto_ge p _

theorem applyAssetFloors_cash_le (p : SimulationParams) (a : AssetState) :
    (applyAssetFloors p a).cashValue ≤ a.cashValue := by
  unfold applyAssetFloors
  exact le_trans (topUpCrypto_cash_le p _) (topUpStock_cash_le p a)

theorem yearBody_records_invariant (p : SimulationParams)
    (hLU : p.cashLowerLimit ≤ p.cashUpperLimit) (hts : 0 < p.stockTaxRate)
    (htc : 0 < p.cryptoTaxRate) (r c i : ℚ) (year : ℕ) (s : SimState) :
    p.stockLowerLimit ≤ (yearBody p r c i year s).stockValue ∧
    p.cryptoLowerLimit ≤ (yearBody p r c i year s).cryptoValue ∧
    (yearBody p r c i year s).cashValue ≤ p.cashUpperLimit := by
  simp only [yearBody]
  refine ⟨applyAssetFloors_stock_ge p _, applyAssetFloors_crypto_ge p _, ?_⟩
  refine le_trans (applyAssetFloors_cash_le p _) ?_
  exact applyCashFloor_cash_le p _ hLU hts htc (applyCashCeiling_cash_le _ _)

/-- Claim C9: with cash lower bound at most the upper bound and strictly
positive tax rates, every Monte Carlo state recorded for a simulated year of
at least 1 keeps stock at or above stockLowerLimit, crypto at or above
cryptoLowerLimit, and cash at or below cashUpperLimit. -/
theorem rebalancing_invariants (p : SimulationParams)
    (hLU : p.cashLowerLimit ≤ p.cashUpperLimit) (hts : 0 < p.stockTaxRate)
    (htc : 0 < p.cryptoTaxRate) :
    ∀ (draw : ℕ → ℚ × ℚ) (y : ℕ), 1 ≤ y →
      p.stockLowerLimit ≤ (mcState p draw y).stockValue ∧
      p.cryptoLowerLimit ≤ (mcState p draw y).cryptoValue ∧
      (mcState p draw y).cashValue ≤ p.cashUpperLimit := by
  intro draw y hy
  obtain ⟨n, rfl⟩ : ∃ n, y = n + 1 := ⟨y - 1, by omega⟩
  simp only [mcState]
  exact yearBody_records_invariant p hLU hts htc _ _ _ _ _

theorem rebalancing_invariants_witness :
    defaultParams.cashLowerLimit ≤ defaultParams.cashUpperLimit ∧
    (0 : ℚ) < defaultParams.stockTaxRate ∧
    (0 : ℚ) < defaultParams.cryptoTaxRate ∧
    (defaultParams.stockLowerLimit
        ≤ (mcState defaultParams halfDraw 1).stockValue ∧
      defaultParams.cryptoLowerLimit
        ≤ (mcState defaultParams halfDraw 1).cryptoValue ∧
      (mcState defaultParams halfDraw 1).cashValue
        ≤ defaultParams.cashUpperLimit) :=
  ⟨by norm_num [defaultParams], by norm_num [defaultParams],
   by norm_num [defaultParams],
   rebalancing_invariants defaultParams (by norm_num [defaultParams])
     (by norm_num [defaultParams]) (by norm_num [defaultParams])
     halfDraw 1 le_rfl⟩

end LifeplanSim
